import Mathlib

/-!
Shallow embedding of the multilingual sentiment analyzer in
`text_analysis.py` (class `MultilingualSentimentAnalyzer` and the
module-level helpers).  Strings are modelled as `List Char`; Python
floats are modelled as `ℚ` (every weight and multiplier in the source is
an exact multiple of 1/20, so no floating-point rounding is observable
on the inputs considered here); Python regular expressions `\w+`,
`[\w']+` and `\b`-anchored literal phrase patterns are modelled
directly as maximal-run tokenisers and boundary-checked literal
matching.  External collaborators (the `langid` language identifier and
the TextBlob polarity analyzer) are parameters of the embedding.
-/

set_option maxRecDepth 20000

namespace EventEval

/-- ASCII whitespace recognised by Python `str.strip()` / `str.split()`
(the source only ever feeds ASCII whitespace to these). -/
def pySpace (c : Char) : Bool :=
  c == ' ' || c == '\t' || c == '\n' || c == '\r' || c == Char.ofNat 11 || c == Char.ofNat 12

/-- Python `\w` (the source's texts use ASCII letters/digits/underscore). -/
def wordChar (c : Char) : Bool := c.isAlphanum || c == '_'

/-- The character class `[\w']` used by the word-level tokenizer. -/
def wordCharA (c : Char) : Bool := wordChar c || c == Char.ofNat 39

/-- `str.lower()` on a character list. -/
def lowerStr (s : List Char) : List Char := s.map Char.toLower

/-- Leading-whitespace removal (first half of `str.strip()`). -/
def dropLeadingWS (l : List Char) : List Char := l.dropWhile pySpace

/-- Trailing-whitespace removal (second half of `str.strip()`). -/
def dropTrailingWS : List Char → List Char
  | [] => []
  | c :: t =>
    match dropTrailingWS t with
    | [] => if pySpace c then [] else [c]
    | r => c :: r

/-- Python `str.strip()`. -/
def stripWS (l : List Char) : List Char := dropTrailingWS (dropLeadingWS l)

/-- Python `pat in s` (substring containment). -/
def containsSub (pat : List Char) : List Char → Bool
  | [] => pat.isEmpty
  | c :: t => pat.isPrefixOf (c :: t) || containsSub pat t

/-- Core of Python `s.replace(pat, '')`: left-to-right,
non-overlapping removal of every occurrence of `pat`.  The `Nat`
argument counts characters of a previously matched occurrence still to
be consumed without emission (so matching never restarts inside a
removed occurrence, exactly the non-overlapping scan of `str.replace`). -/
def removeAllGo (pat : List Char) : List Char → Nat → List Char
  | [], _ => []
  | _ :: t, k + 1 => removeAllGo pat t k
  | c :: t, 0 =>
    if !pat.isEmpty && pat.isPrefixOf (c :: t) then removeAllGo pat t (pat.length - 1)
    else c :: removeAllGo pat t 0

/-- Python `s.replace(pat, '')`. -/
def pyRemoveAll (pat s : List Char) : List Char := removeAllGo pat s 0

/-- Fuelled maximal-run scanner behind `re.findall`/`re.finditer` for a
character-class pattern such as `\w+`: returns the `(start, run)`
pairs of maximal runs of characters satisfying `p`. -/
def runsAux (p : Char → Bool) : Nat → Nat → List Char → List (Nat × List Char)
  | _, _, [] => []
  | 0, _, _ => []
  | n + 1, i, c :: t =>
    if p c then
      (i, (c :: t).takeWhile p) :: runsAux p n (i + ((c :: t).takeWhile p).length) ((c :: t).dropWhile p)
    else
      runsAux p n (i + 1) t

/-- `re.finditer(r"X+", s)` for a character class `X`, with positions. -/
def tokenRuns (p : Char → Bool) (l : List Char) : List (Nat × List Char) :=
  runsAux p l.length 0 l

/-- Python `str.split()` with no argument: whitespace-run splitting,
empty pieces discarded. -/
def pySplitWS (l : List Char) : List (List Char) :=
  (tokenRuns (fun c => !pySpace c) l).map Prod.snd

/-- Python `str.split('.')`. -/
def splitOnDot : List Char → List (List Char)
  | [] => [[]]
  | c :: t =>
    if c = '.' then [] :: splitOnDot t
    else
      match splitOnDot t with
      | [] => [[c]]
      | h :: r => (c :: h) :: r

/-- The sentence segmentation used throughout the source:
`[s.strip() for s in text.replace('!', '.').replace('?', '.').split('.') if s.strip()]`. -/
def pySentences (text : List Char) : List (List Char) :=
  ((splitOnDot (text.map (fun c => if c = '!' ∨ c = '?' then '.' else c))).map stripWS).filter
    (fun s => !s.isEmpty)

/-- Python `abs` on rationals. -/
def qabs (q : ℚ) : ℚ := if q < 0 then -q else q

/-- Python `round(x, 2)`.  All values reaching `round` in the source are
exact multiples of 1/100, on which this is the identity, so the
half-up/half-even difference is unobservable. -/
def round2 (q : ℚ) : ℚ := ((q * 100 + 1 / 2).floor : ℚ) / 100

/-- Stable insertion of a string into a length-descending sorted list:
an element is placed before every later element of equal length,
mirroring the stability of Python `sorted(key=len, reverse=True)`. -/
def insertByLenDesc (x : List Char) : List (List Char) → List (List Char)
  | [] => [x]
  | a :: s => if x.length < a.length then a :: insertByLenDesc x s else x :: a :: s

/-- Python `sorted(l, key=len, reverse=True)` (stable). -/
def sortByLenDesc (l : List (List Char)) : List (List Char) :=
  l.foldr insertByLenDesc []

/-! ## The analyzer's lexicon tables (constructor of `MultilingualSentimentAnalyzer`) -/

/-- `self.tagalog_positive`. -/
def tagalogPositive : List (String × ℚ) :=
  [("maganda", 1), ("ganda", 1), ("mabuti", 1), ("buti", 1),
   ("masaya", 1), ("saya", 1), ("nakakatuwa", 1), ("tuwa", 1),
   ("galing", 1), ("magaling", 1), ("bilib", 1), ("husay", 1),
   ("mahusay", 1), ("astig", 1), ("sulit", 1), ("panalo", 1),
   ("maayos", 1), ("ayos", 1), ("linis", 1), ("malinis", 1),
   ("effective", 1), ("efficient", 1), ("successful", 1), ("tagumpay", 1),
   ("productive", 1), ("organized", 1), ("smooth", 1), ("professional", 1),
   ("natuto", 1), ("natutunan", 1), ("nakatulong", 1), ("helpful", 1),
   ("satisfied", 1), ("fun", 1), ("interesting", 1), ("educational", 1),
   ("useful", 1), ("motivating", 1), ("solid", 1), ("swabe", 1),
   ("oks", 0.5), ("goods", 1), ("nice", 1), ("yes", 1), ("oo", 1),
   ("sige", 0.5), ("salamat", 1), ("grateful", 1), ("appreciate", 1),
   ("appreciated", 1), ("thankful", 1)]

/-- `self.tagalog_negative`. -/
def tagalogNegative : List (String × ℚ) :=
  [("masama", -1), ("sama", -1), ("pangit", -1), ("panget", -1),
   ("nakakaasar", -1), ("asar", -1), ("nakakainis", -1), ("inis", -1),
   ("galit", -1), ("ayaw", -1), ("badtrip", -1), ("nakakagalit", -1),
   ("boring", -1), ("nakakaantok", -1), ("sayang", -1),
   ("disappointed", -1), ("disappointing", -1), ("nakakadismaya", -1),
   ("dismaya", -1), ("dismayado", -1), ("nabigo", -1), ("failed", -1),
   ("problem", -0.7), ("problema", -0.7), ("mali", -0.8),
   ("kulang", -0.7), ("kakulangan", -0.8), ("incomplete", -0.7), ("poor", -1),
   ("crowded", -0.8), ("difficult", -0.8), ("nahirapan", -0.8), ("hard", -0.7),
   ("frustrated", -1), ("frustrating", -1), ("nakakafrustrate", -1),
   ("bad", -1), ("worst", -2), ("disorganized", -1), ("chaotic", -1),
   ("magulo", -0.8), ("noisy", -0.6), ("late", -0.7), ("delayed", -0.7),
   ("matagal", -0.6), ("mabagal", -0.6), ("unprepared", -0.8),
   ("unprofessional", -1), ("mediocre", -0.6), ("meh", -0.5),
   ("reklamo", -1), ("bagsak", -1.5), ("lungkot", -1), ("nakakalungkot", -1)]

/-- `self.positive_phrases`. -/
def positivePhrases : List String :=
  ["very good", "ang ganda", "sobrang ganda", "sobra ganda", "ang galing",
   "maraming salamat", "thank you so much", "napakaganda",
   "napakagaling", "the best", "well done", "job well done",
   "great job", "excellent work", "love it", "loved it",
   "napakasaya", "sobrang saya", "sobra saya", "ang saya",
   "napakaayos", "sobrang ayos", "ang husay", "napakatahimik",
   "well-organized", "well-prepared", "well-managed", "well-planned"]

/-- `self.negative_phrases`. -/
def negativePhrases : List String :=
  ["not good", "not great", "hindi maganda", "walang kwenta",
   "waste of time", "sayang lang", "hindi ako satisfied",
   "bad experience", "poor quality", "very bad", "so bad",
   "napakamasama", "sobrang masama", "ang sama",
   "napakapangit", "sobrang pangit", "hindi prepared",
   "hindi naging maayos", "hindi maayos", "hindi okay",
   "hindi ayos", "di maayos", "di maganda", "waste of energy"]

/-- `self.neutral_indicators`.  NOTE: in the source the comma after
`'however'` is missing, so Python's implicit string-literal
concatenation fuses `'however'` with the next literal `'okay lang'`
into the single element `'howeverokay lang'`; the list is embedded
exactly as the interpreter builds it. -/
def neutralIndicators : List String :=
  ["okay", "ok", "alright", "fine", "so-so", "average", "normal",
   "ordinary", "mediocre", "fair", "decent", "not bad", "moderate",
   "acceptable", "passable", "adequate", "sufficient", "howeverokay lang",
   "ok lang", "oks lang", "ayos lang", "pwede na",
   "pwede naman", "ganon lang", "ganun lang", "sige lang",
   "lang naman", "naman", "typical", "karaniwan", "normal lang",
   "sige", "pwede", "maaari", "maybe", "perhaps", "siguro",
   "may improvement", "pwede pang", "pero okay", "pero ayos"]

/-- `self.negations`. -/
def negationsList : List String :=
  ["not", "no", "never", "hindi", "wala", "walang", "di", "di ko", "hinde"]

/-- `self.intensifiers`. -/
def intensifiersList : List String :=
  ["very", "really", "extremely", "super", "sobra", "sobrang",
   "napaka", "labis", "grabe", "talaga", "so", "too", "ganado", "masyado"]

/-- `self.diminishers`. -/
def diminishersList : List String :=
  ["slightly", "somewhat", "a bit", "a little", "medyo", "konti",
   "kaunti", "bahagya"]

/-- `self.positive_emoticons`. -/
def positiveEmoticons : List String :=
  ["😊", "😀", "😄", "😍", "👍", "🙌", "🎉", ":)", ":-)", ":D"]

/-- `self.negative_emoticons`. -/
def negativeEmoticons : List String :=
  ["😞", "😢", "😠", "😡", "👎", "😕", "😔", ":(", ":-(", "D:"]

/-- `self.positive_emoticons + self.negative_emoticons` as used by
`remove_emojis`. -/
def emoticonsAll : List String := positiveEmoticons ++ negativeEmoticons

/-- `self.tagalog_prefixes`. -/
def tagalogPrefixes : List String :=
  ["nag-", "nag", "mag-", "mag", "na-", "na", "ma-", "ma", "naka-", "naka",
   "ipinag-", "ipinag", "pag-", "pag"]

/-- `self.tagalog_suffixes`. -/
def tagalogSuffixes : List String :=
  ["-an", "an", "-in", "in", "-nan", "nan", "-hin", "hin"]

/-- The `constructive_patterns` local list of `analyze_sentence_sentiment`
(the duplicate `'next time'` of the source is kept). -/
def constructivePatterns : List String :=
  ["could be improved", "could still be improved", "room for improvement",
   "with a few adjustments", "next time", "believe the next", "can be even better",
   "some areas", "however", "but", "although",
   "maaaring pagbutihin", "maaaring mapabuti", "may mga areas na maaaring",
   "sa susunod", "next time", "pwede pang mapabuti", "sana ay maayos",
   "pero", "ngunit", "subalit", "gayunpaman"]

/-- The `contrast_words` list of `analyze_mixed_sentiment`. -/
def contrastWords : List String :=
  ["but", "however", "although", "pero", "ngunit", "subalit"]

/-- The positive phrase list as character lists. -/
def posPhrasesL : List (List Char) := positivePhrases.map String.toList

/-- The negative phrase list as character lists. -/
def negPhrasesL : List (List Char) := negativePhrases.map String.toList

/-! ## Stemming and table lookup -/

/-- Dictionary lookup in a weight table (keys are unique in both
default tables, so association-list lookup is dict lookup). -/
def lookupW (tbl : List (String × ℚ)) (w : List Char) : Option ℚ :=
  tbl.lookup (String.mk w)

/-- `stem_tagalog`: rule-based affix stripping.  The prefix/suffix
lists are scanned longest-first (`sorted(key=len, reverse=True)`), the
first hit is stripped (plus a left-over dash), and the result is kept
only when at least 3 characters remain. -/
def stemTagalog (w : List Char) : List Char :=
  if w.length ≤ 4 then w
  else
    let s1 :=
      match (sortByLenDesc (tagalogPrefixes.map String.toList)).find?
          (fun p => p.isPrefixOf w) with
      | some p =>
        let r := w.drop p.length
        if r.head? = some '-' then r.drop 1 else r
      | none => w
    let s2 :=
      if s1.length > 4 then
        match (sortByLenDesc (tagalogSuffixes.map String.toList)).find?
            (fun suf => suf.isSuffixOf s1) with
        | some suf =>
          let r := s1.take (s1.length - suf.length)
          if r.getLast? = some '-' then r.take (r.length - 1) else r
        | none => s1
      else s1
    if s2.length ≥ 3 then s2 else w

/-- The Python expression `tbl.get(word) or tbl.get(stemmed)`: a
falsy (absent or zero) first lookup falls through to the stemmed
lookup.  (The guard on membership in the callers ensures the value
used is never `None`.) -/
def lookupChain (tbl : List (String × ℚ)) (w s : List Char) : ℚ :=
  match lookupW tbl w with
  | some v => if v = 0 then (lookupW tbl s).getD 0 else v
  | none => (lookupW tbl s).getD 0

/-! ## Sentence-level analysis (`analyze_sentence_sentiment`) -/

/-- The per-sentence record returned by `analyze_sentence_sentiment`. -/
structure SentenceResult where
  pos : ℚ
  neg : ℚ
  constructive : Bool
  balance : ℚ
  deriving DecidableEq, Repr

/-- One step of the word loop of `analyze_sentence_sentiment`:
negation and the 1.5 intensifier multiplier look only at the
immediately preceding whitespace token. -/
def sentWordStep (prev : Option (List Char)) (acc : ℚ × ℚ) (w : List Char) : ℚ × ℚ :=
  let negd :=
    match prev with
    | some p => negationsList.contains (String.mk p)
    | none => false
  let mult : ℚ :=
    match prev with
    | some p => if intensifiersList.contains (String.mk p) then 1.5 else 1
    | none => 1
  let st := stemTagalog w
  if (lookupW tagalogPositive w).isSome || (lookupW tagalogPositive st).isSome then
    let score := lookupChain tagalogPositive w st * mult
    if negd then (acc.1, acc.2 + score) else (acc.1 + score, acc.2)
  else if (lookupW tagalogNegative w).isSome || (lookupW tagalogNegative st).isSome then
    let score := qabs (lookupChain tagalogNegative w st) * mult
    if negd then (acc.1 + score, acc.2) else (acc.1, acc.2 + score)
  else acc

/-- The word loop of `analyze_sentence_sentiment`. -/
def sentLoop : Option (List Char) → (ℚ × ℚ) → List (List Char) → ℚ × ℚ
  | _, acc, [] => acc
  | prev, acc, w :: rest => sentLoop (some w) (sentWordStep prev acc w) rest

/-- `analyze_sentence_sentiment`. -/
def analyzeSentenceSentiment (sentence : List Char) : SentenceResult :=
  let sl := lowerStr sentence
  let isCon := constructivePatterns.any (fun p => containsSub p.toList sl)
  let acc := sentLoop none (0, 0) (pySplitWS sl)
  ⟨acc.1, acc.2, isCon, acc.1 - acc.2⟩

/-! ## Phrase scanning with word boundaries (`analyze_tagalog_sentiment`) -/

/-- Wordness of the character at index `i` (out of range counts as
non-word), as used by `\b`. -/
def isWordAt (t : List Char) (i : Nat) : Bool :=
  match t.get? i with
  | some c => wordChar c
  | none => false

/-- `\b` at position `i` of `t`: the wordness of the characters on the
two sides of the position differs. -/
def hasBoundary (t : List Char) (i : Nat) : Bool :=
  if i = 0 then isWordAt t 0 else isWordAt t i != isWordAt t (i - 1)

/-- A match of the pattern `\b` ++ `re.escape(p)` ++ `\b` starting at
index `i` of `t`. -/
def phraseMatchAt (p t : List Char) (i : Nat) : Bool :=
  p.isPrefixOf (t.drop i) && hasBoundary t i && hasBoundary t (i + p.length)

/-- Fuelled left-to-right non-overlapping scan of `re.finditer`. -/
def finditerAux (p t : List Char) : Nat → Nat → List Nat
  | 0, _ => []
  | n + 1, i =>
    if i > t.length then []
    else if phraseMatchAt p t i then i :: finditerAux p t n (i + p.length)
    else finditerAux p t n (i + 1)

/-- Start indices of the matches `re.finditer` yields for the
boundary-anchored literal phrase `p` in `t`. -/
def finditer (p t : List Char) : List Nat := finditerAux p t (t.length + 1) 0

/-- `is_negated_context`: a negation word among the `\w+` tokens of the
(up to) 20 characters preceding `start`. -/
def negatedContext (t : List Char) (start : Nat) : Bool :=
  if start = 0 then false
  else
    let ctx := (t.take start).drop (start - 20)
    (tokenRuns wordChar ctx).any (fun r => negationsList.contains (String.mk r.2))

/-- Accumulator state of the phrase scan: the two scores and the list
of claimed `range(start, end)` spans (`used_phrase_ranges`). -/
structure ScanState where
  pos : ℚ
  neg : ℚ
  used : List (Nat × Nat)
  deriving DecidableEq, Repr

/-- `start_idx in r` for any recorded range. -/
def usedContains (used : List (Nat × Nat)) (i : Nat) : Bool :=
  used.any (fun r => decide (r.1 ≤ i ∧ i < r.2))

/-- Processing of one phrase match: a match whose start lies in an
already claimed span is skipped; otherwise a negated positive (resp.
negative) phrase adds 2.0 to the opposite accumulator and an un-negated
one adds 2.5 to its own, and the span is claimed. -/
def phraseStep (isPos : Bool) (tl p : List Char) (st : ScanState) (start : Nat) : ScanState :=
  if usedContains st.used start then st
  else
    let rng := (start, start + p.length)
    if isPos then
      if negatedContext tl start then ⟨st.pos, st.neg + 2, st.used ++ [rng]⟩
      else ⟨st.pos + 2.5, st.neg, st.used ++ [rng]⟩
    else
      if negatedContext tl start then ⟨st.pos + 2, st.neg, st.used ++ [rng]⟩
      else ⟨st.pos, st.neg + 2.5, st.used ++ [rng]⟩

/-- All matches of one phrase, in scan order. -/
def scanPhrase (isPos : Bool) (tl : List Char) (st : ScanState) (p : List Char) : ScanState :=
  (finditer p tl).foldl (fun s i => phraseStep isPos tl p s i) st

/-- Count of neutral indicators present as substrings of the lowered
text (lines 307-310 / 479 of the source: a plain `in` check). -/
def neutralCountL (tl : List Char) : Nat :=
  neutralIndicators.countP (fun ind => containsSub ind.toList tl)

/-! ## Word-level loop of `analyze_tagalog_sentiment` -/

/-- The intensifier/diminisher multiplier of the word loop: the first
of the previous two `[\w']+` tokens that is an intensifier (2.0) or a
diminisher (0.5) decides; default 1.0. -/
def docMultiplier (words : List (List Char)) (i : Nat) : ℚ :=
  let isInt := fun j => intensifiersList.contains (String.mk (words.getD j []))
  let isDim := fun j => diminishersList.contains (String.mk (words.getD j []))
  match ((List.range i).drop (i - 2)).find? (fun j => isInt j || isDim j) with
  | some j => if isInt j then 2 else 0.5
  | none => 1

/-- One step of the word loop (lines 376-414): tokens starting inside a
claimed phrase span are skipped; otherwise the raw-then-stemmed lookup
scores the token, scaled by the multiplier, and negation (20-character
context) flips the contribution to the opposite accumulator. -/
def docWordStep (tl : List Char) (used : List (Nat × Nat)) (words : List (List Char))
    (acc : ℚ × ℚ) (item : Nat × (Nat × List Char)) : ℚ × ℚ :=
  let i := item.1
  let start := item.2.1
  let w := item.2.2
  if usedContains used start then acc
  else
    let negd := negatedContext tl start
    let mult := docMultiplier words i
    let st := stemTagalog w
    if (lookupW tagalogPositive w).isSome || (lookupW tagalogPositive st).isSome then
      let score := lookupChain tagalogPositive w st * mult
      if negd then (acc.1, acc.2 + score) else (acc.1 + score, acc.2)
    else if (lookupW tagalogNegative w).isSome || (lookupW tagalogNegative st).isSome then
      let score := qabs (lookupChain tagalogNegative w st) * mult
      if negd then (acc.1 + score, acc.2) else (acc.1, acc.2 + score)
    else acc

/-! ## Classifier and the Tagalog result -/

/-- The final sentiment determination of `analyze_tagalog_sentiment`
(lines 430-449), as a function of the two accumulators, the neutral
indicator count and the sentence-level summary. -/
def classifySentiment (pos neg : ℚ) (nCount posSent negSent consCount : Nat) : String × ℚ :=
  let total := pos - neg
  if nCount ≥ 1 ∧ pos < 1 ∧ neg < 1 then ("neutral", 0.75)
  else if ((posSent > 0 ∧ negSent > 0) ∨ consCount > 0) ∧ (consCount ≥ 2 ∨ neg ≥ 1) then
    ("neutral", 0.8)
  else if total ≥ 0.7 then ("positive", min (0.6 + total / 10) 0.95)
  else if total ≤ -0.7 then ("negative", min (0.6 + qabs total / 10) 0.95)
  else ("neutral", 0.65)

/-- The dictionary returned by `analyze_tagalog_sentiment` (scores and
confidence rounded to 2 places, plus the sentence summary). -/
structure TagalogResult where
  sentiment : String
  positiveScore : ℚ
  negativeScore : ℚ
  totalScore : ℚ
  confidence : ℚ
  totalSentences : Nat
  posSentences : Nat
  negSentences : Nat
  neuSentences : Nat
  constructive : Nat
  method : String
  deriving DecidableEq, Repr

/-- `analyze_tagalog_sentiment`: emoticon scoring, neutral-indicator
counting, longest-first boundary-matched phrase scanning with span
claiming and negation flipping, the word-level loop on unclaimed
tokens, sentence-level analysis, and the final classification. -/
def analyzeTagalogSentiment (text : String) : TagalogResult :=
  let tlist := text.toList
  let tl := lowerStr tlist
  let emoScore : ℚ :=
    (positiveEmoticons.foldl (fun a e => if containsSub e.toList tlist then a + 0.5 else a) 0) +
    (negativeEmoticons.foldl (fun a e => if containsSub e.toList tlist then a - 0.5 else a) 0)
  let nCount := neutralCountL tl
  let st1 := (sortByLenDesc posPhrasesL).foldl (scanPhrase true tl) ⟨0, 0, []⟩
  let st2 := (sortByLenDesc negPhrasesL).foldl (scanPhrase false tl) st1
  let wordsData := tokenRuns wordCharA tl
  let words := wordsData.map Prod.snd
  let wacc := wordsData.enum.foldl (docWordStep tl st2.used words) (st2.pos, st2.neg)
  let pos := if emoScore > 0 then wacc.1 + emoScore else wacc.1
  let neg := if emoScore < 0 then wacc.2 + qabs emoScore else wacc.2
  let sentences := pySentences tlist
  let sents := sentences.map analyzeSentenceSentiment
  let consCount := sents.countP (fun s => s.constructive)
  let posSent := sents.countP (fun s => decide (s.balance > 0.5))
  let negSent := sents.countP (fun s => decide (s.balance < -0.5))
  let sc := classifySentiment pos neg nCount posSent negSent consCount
  { sentiment := sc.1
    positiveScore := round2 pos
    negativeScore := round2 neg
    totalScore := round2 (pos - neg)
    confidence := round2 sc.2
    totalSentences := sentences.length
    posSentences := posSent
    negSentences := negSent
    neuSentences := sentences.length - posSent - negSent
    constructive := consCount
    method := "tagalog_lexicon_enhanced" }

/-! ## Blending, normalisation and dispatch -/

/-- The projection of a sentiment result that every path of
`analyze_sentiment` produces: label, confidence and the method tag. -/
structure Result where
  sentiment : String
  confidence : ℚ
  method : String
  deriving DecidableEq, Repr

/-- The output of `analyze_english_sentiment` (the TextBlob wrapper).
The polarity analyzer is an external collaborator, so results of this
shape are parameters of the embedding. -/
structure EnResult where
  sentiment : String
  polarity : ℚ
  subjectivity : ℚ
  confidence : ℚ
  method : String
  deriving DecidableEq, Repr

/-- The `LanguageSignal` produced by `detect_language` (wrapping the
external `langid` collaborator; also a parameter of the embedding). -/
structure LangInfo where
  language : String
  confidence : ℚ
  is_reliable : Bool
  deriving DecidableEq, Repr

/-- Projection of a Tagalog result to the common shape. -/
def tagalogToResult (r : TagalogResult) : Result :=
  ⟨r.sentiment, r.confidence, r.method⟩

/-- Projection of an English result to the common shape. -/
def enToResult (e : EnResult) : Result :=
  ⟨e.sentiment, e.confidence, e.method⟩

/-- Substring presence of a contrast marker (line 498-499). -/
def hasContrastL (tl : List Char) : Bool :=
  contrastWords.any (fun w => containsSub w.toList tl)

/-- `analyze_mixed_sentiment`: trust an indicator-backed neutral
lexical result, then a strong (`|total| ≥ 2`) lexical result, then
force neutral 0.8 on contrastive text with any lexical signal, then
compare confidences (blending when the lexical total exceeds 1). -/
def analyzeMixedSentiment (en : EnResult) (text : String) : Result :=
  let tl := lowerStr text.toList
  let tg := analyzeTagalogSentiment text
  if neutralCountL tl ≥ 1 ∧ tg.sentiment = "neutral" then tagalogToResult tg
  else if qabs tg.totalScore ≥ 2 then tagalogToResult tg
  else if hasContrastL tl = true ∧ (tg.positiveScore > 0 ∨ tg.negativeScore > 0) then
    ⟨"neutral", 0.8, "mixed_contrast_override"⟩
  else if en.confidence > tg.confidence then
    if qabs tg.totalScore > 1 then
      ⟨if en.polarity + tg.totalScore > 0 then "positive" else "negative",
        (en.confidence + tg.confidence) / 2, "blended_mixed_confidence"⟩
    else enToResult en
  else tagalogToResult tg

/-- Membership of a character in the Unicode ranges of the
`emoji_pattern` character class of `remove_emojis`. -/
def inEmojiRange (c : Char) : Bool :=
  let n := c.toNat
  (0x1F600 ≤ n && n ≤ 0x1F64F) || (0x1F300 ≤ n && n ≤ 0x1F5FF) ||
  (0x1F680 ≤ n && n ≤ 0x1F6FF) || (0x1F1E0 ≤ n && n ≤ 0x1F1FF) ||
  (0x2702 ≤ n && n ≤ 0x27B0) || (0x24C2 ≤ n && n ≤ 0x1F251)

/-- `remove_emojis` (the text normalizer) on a character list:
sequential removal of each emoticon token, removal of every character
in the pictograph ranges, and a final `strip()`. -/
def removeEmojisL (l : List Char) : List Char :=
  stripWS ((emoticonsAll.foldl (fun s e => pyRemoveAll e.toList s) l).filter
    (fun c => !inEmojiRange c))

/-- `remove_emojis` on strings. -/
def removeEmojis (text : String) : String :=
  String.mk (removeEmojisL text.toList)

/-- The three analysis paths of `analyze_sentiment`. -/
inductive PathChoice where
  | english
  | tagalog
  | mixed
  deriving DecidableEq, Repr

/-- The strong-Tagalog-indicator check of `analyze_sentiment` (lines
577-581): any polarity phrase as a substring, or any `\w+` token that
is a key of either word table. -/
def hasStrongTagalog (tl : List Char) : Bool :=
  (positivePhrases ++ negativePhrases).any (fun p => containsSub p.toList tl) ||
  (tokenRuns wordChar tl).any
    (fun r => (lookupW tagalogPositive r.2).isSome || (lookupW tagalogNegative r.2).isSome)

/-- The dispatch of `analyze_sentiment` (lines 585-591). -/
def choosePath (lang : LangInfo) (cleaned : String) : PathChoice :=
  let tl := lowerStr cleaned.toList
  if lang.language = "en" ∧ lang.is_reliable = true ∧ hasStrongTagalog tl = false then
    PathChoice.english
  else if lang.language = "tl" then PathChoice.tagalog
  else PathChoice.mixed

/-- `analyze_sentiment`: empty and emoji-only short-circuits, then
language-based dispatch.  `langid` (the language identifier) and `en`
(the TextBlob wrapper's result on the cleaned text) are the two
external collaborators. -/
def analyzeSentiment (langid : String → LangInfo) (en : String → EnResult)
    (text : String) : Result :=
  if stripWS text.toList = [] then ⟨"neutral", 0, "empty_text"⟩
  else
    let cleaned := removeEmojis text
    if cleaned = "" then ⟨"neutral", 0, "empty_after_emoji_removal"⟩
    else
      match choosePath (langid cleaned) cleaned with
      | PathChoice.english => enToResult (en cleaned)
      | PathChoice.tagalog => tagalogToResult (analyzeTagalogSentiment cleaned)
      | PathChoice.mixed => analyzeMixedSentiment (en cleaned) cleaned

/-! ## Comment splitting (`split_comment_by_sentiment`) -/

/-- The sentence bucketing of `split_comment_by_sentiment`: balance
above 0.3 is positive, below -0.3 negative, else neutral. -/
def bucketSentences : List (List Char) → List (List Char) × List (List Char) × List (List Char)
  | [] => ([], [], [])
  | s :: rest =>
    let r := bucketSentences rest
    let b := (analyzeSentenceSentiment s).balance
    if b > 0.3 then (s :: r.1, r.2.1, r.2.2)
    else if b < -0.3 then (r.1, s :: r.2.1, r.2.2)
    else (r.1, r.2.1, s :: r.2.2)

/-- `'. '.join(sentences) + ('.' if sentences else '')`, stripped. -/
def joinPart (ss : List (List Char)) : List Char :=
  stripWS (List.intercalate ('.' :: ' ' :: []) ss ++ (if ss.isEmpty then [] else ['.']))

/-- The record returned by `split_comment_by_sentiment`. -/
structure SplitResult where
  positivePart : String
  negativePart : String
  neutralPart : String
  posCount : Nat
  negCount : Nat
  neuCount : Nat
  deriving DecidableEq, Repr

/-- `split_comment_by_sentiment` (with the default analyzer). -/
def splitCommentBySentiment (text : String) : SplitResult :=
  let b := bucketSentences (pySentences text.toList)
  { positivePart := String.mk (joinPart b.1)
    negativePart := String.mk (joinPart b.2.1)
    neutralPart := String.mk (joinPart b.2.2)
    posCount := b.1.length
    negCount := b.2.1.length
    neuCount := b.2.2.length }

/-! ## Custom lexicon loading (`load_custom_lexicon`) -/

/-- One caller-supplied lexicon record; every field access in the
source goes through `dict.get` with a default, so each field is
optional. -/
structure LexEntry where
  word : Option String
  sentiment : Option String
  weight : Option ℚ
  language : Option String
  isPhrase : Option Bool
  deriving DecidableEq, Repr

/-- The mutable lexicon tables of the analyzer instance. -/
structure Store where
  tagalog_positive : List (String × ℚ)
  tagalog_negative : List (String × ℚ)
  positive_phrases : List String
  negative_phrases : List String
  neutral_indicators : List String
  deriving DecidableEq, Repr

/-- The tables the constructor builds before any custom merge. -/
def defaultStore : Store :=
  { tagalog_positive := tagalogPositive
    tagalog_negative := tagalogNegative
    positive_phrases := positivePhrases
    negative_phrases := negativePhrases
    neutral_indicators := neutralIndicators }

/-- Python `d[k] = v` on a dict modelled as an association list whose
lookup finds the most recent write: add or overwrite under the key. -/
def dictSet (tbl : List (String × ℚ)) (k : String) (v : ℚ) : List (String × ℚ) :=
  (k, v) :: tbl.filter (fun e => !(e.1 == k))

/-- One iteration of the `load_custom_lexicon` loop.  Only entries
with `language == 'tl'` and a recognised sentiment change the store;
a missing weight defaults to 1.0; phrase entries are appended to the
corresponding phrase list; everything else (including every
`'en'` entry) leaves the store unchanged. -/
def applyLexEntry (st : Store) (e : LexEntry) : Store :=
  let word := String.mk (lowerStr (e.word.getD "").toList)
  let weight := e.weight.getD 1
  let language := e.language.getD "en"
  let isPhrase := e.isPhrase.getD false
  if language = "tl" then
    match e.sentiment with
    | some "positive" =>
      { st with
        tagalog_positive := dictSet st.tagalog_positive word weight
        positive_phrases :=
          if isPhrase then st.positive_phrases ++ [word] else st.positive_phrases }
    | some "negative" =>
      { st with
        tagalog_negative := dictSet st.tagalog_negative word (-weight)
        negative_phrases :=
          if isPhrase then st.negative_phrases ++ [word] else st.negative_phrases }
    | some "neutral" =>
      { st with neutral_indicators := st.neutral_indicators ++ [word] }
    | _ => st
  else st

/-- `load_custom_lexicon`: fold the entries over the store. -/
def loadCustomLexicon (st : Store) (entries : List LexEntry) : Store :=
  entries.foldl applyLexEntry st

/-! ## Helper lemmas -/

theorem aux_mem_dropWhile {p : Char → Bool} {c : Char} :
    ∀ {l : List Char}, c ∈ l.dropWhile p → c ∈ l := by
  intro l
  induction l with
  | nil => simp [List.dropWhile]
  | cons a t ih =>
    simp only [List.dropWhile]
    intro h
    by_cases hp : p a
    · simp only [hp] at h
      exact List.mem_cons_of_mem a (ih h)
    · simp only [hp] at h
      simpa using h

theorem aux_mem_dropTrailing {c : Char} :
    ∀ {l : List Char}, c ∈ dropTrailingWS l → c ∈ l := by
  intro l
  induction l with
  | nil => simp [dropTrailingWS]
  | cons a t ih =>
    simp only [dropTrailingWS]
    cases h : dropTrailingWS t with
    | nil =>
      by_cases hs : pySpace a
      · simp [hs]
      · simp only [hs]
        intro hm
        simp only [Bool.false_eq_true, if_false, List.mem_singleton] at hm
        simp [hm]
    | cons b r =>
      intro hm
      rcases List.mem_cons.mp hm with h1 | h2
      · simp [h1]
      · exact List.mem_cons_of_mem a (ih (by rw [h]; exact h2))

theorem aux_mem_strip {c : Char} {l : List Char} (h : c ∈ stripWS l) : c ∈ l :=
  aux_mem_dropWhile (aux_mem_dropTrailing h)

theorem aux_dropTrailing_eq_nil {l : List Char} :
    dropTrailingWS l = [] ↔ ∀ c ∈ l, pySpace c = true := by
  induction l with
  | nil => simp [dropTrailingWS]
  | cons a t ih =>
    simp only [dropTrailingWS]
    cases h : dropTrailingWS t with
    | nil =>
      have ht : ∀ c ∈ t, pySpace c = true := ih.mp h
      by_cases hs : pySpace a
      · simp only [hs, if_true]
        constructor
        · intro _ c hc
          rcases List.mem_cons.mp hc with h1 | h2
          · simpa [h1] using hs
          · exact ht c h2
        · intro _; trivial
      · simp only [hs]
        constructor
        · intro hcon
          simp at hcon
        · intro hall
          exact absurd (hall a (List.mem_cons_self a t)) (by simp [hs])
    | cons b r =>
      constructor
      · intro hcon; simp at hcon
      · intro hall
        have : dropTrailingWS t = [] := by
          exact ih.mpr (fun c hc => hall c (List.mem_cons_of_mem a hc))
        rw [this] at h
        simp at h

theorem aux_dropTrailing_head :
    ∀ (l : List Char), dropTrailingWS l = [] ∨ (dropTrailingWS l).head? = l.head? := by
  intro l
  cases l with
  | nil => exact Or.inl rfl
  | cons a t =>
    simp only [dropTrailingWS]
    cases h : dropTrailingWS t with
    | nil =>
      by_cases hs : pySpace a
      · simp [hs]
      · simp [hs]
    | cons b r => simp

theorem aux_dTW_cons (a : Char) (t : List Char) :
    dropTrailingWS (a :: t) =
      match dropTrailingWS t with
      | [] => if pySpace a then [] else [a]
      | r => a :: r := rfl

theorem aux_dropTrailing_idem :
    ∀ (l : List Char), dropTrailingWS (dropTrailingWS l) = dropTrailingWS l := by
  intro l
  induction l with
  | nil => rfl
  | cons a t ih =>
    cases h : dropTrailingWS t with
    | nil =>
      have e1 : dropTrailingWS (a :: t) = if pySpace a then [] else [a] := by
        rw [aux_dTW_cons, h]
      rw [e1]
      by_cases hs : pySpace a
      · simp [hs, dropTrailingWS]
      · simp [hs, dropTrailingWS]
    | cons b r =>
      have e1 : dropTrailingWS (a :: t) = a :: b :: r := by
        rw [aux_dTW_cons, h]
      rw [e1, aux_dTW_cons]
      rw [h] at ih
      rw [ih]

theorem aux_dropWhile_head (l : List Char) :
    l.dropWhile pySpace = [] ∨
      ∃ c t', l.dropWhile pySpace = c :: t' ∧ pySpace c = false := by
  induction l with
  | nil => exact Or.inl rfl
  | cons a t ih =>
    by_cases hs : pySpace a
    · simpa [List.dropWhile, hs] using ih
    · exact Or.inr ⟨a, t, by simp [List.dropWhile, hs], by simpa using hs⟩

theorem aux_dropWhile_eq_self {l : List Char}
    (h : l = [] ∨ ∃ c t', l = c :: t' ∧ pySpace c = false) :
    l.dropWhile pySpace = l := by
  rcases h with h | ⟨c, t', rfl, hc⟩
  · simp [h]
  · simp [List.dropWhile, hc]

theorem aux_strip_idem (l : List Char) : stripWS (stripWS l) = stripWS l := by
  unfold stripWS
  unfold dropLeadingWS
  rcases aux_dropTrailing_head (l.dropWhile pySpace) with h | h
  · rw [h]
    rfl
  · rcases aux_dropWhile_head l with h0 | ⟨c, t', h0, hc⟩
    · rw [h0] at h ⊢
      cases hd : dropTrailingWS ([] : List Char) with
      | nil => rfl
      | cons b r => simp [dropTrailingWS] at hd
    · rw [h0] at h ⊢
      cases hd : dropTrailingWS (c :: t') with
      | nil => rfl
      | cons b r =>
        rw [hd] at h
        have hb : b = c := by
          simp at h
          exact h
        have hself : (b :: r).dropWhile pySpace = b :: r := by
          apply aux_dropWhile_eq_self
          exact Or.inr ⟨b, r, rfl, by rw [hb]; exact hc⟩
        rw [hself]
        have hi := aux_dropTrailing_idem (c :: t')
        rw [hd] at hi
        exact hi

theorem aux_removeAllGo_id {pat : List Char} :
    ∀ (s : List Char), containsSub pat s = false → removeAllGo pat s 0 = s := by
  intro s
  induction s with
  | nil => intro _; rfl
  | cons c t ih =>
    intro hs
    simp only [containsSub, Bool.or_eq_false_iff] at hs
    simp only [removeAllGo, hs.1, Bool.and_false, Bool.false_eq_true, if_false]
    rw [ih hs.2]

theorem aux_pyRemoveAll_id {pat s : List Char} (h : containsSub pat s = false) :
    pyRemoveAll pat s = s :=
  aux_removeAllGo_id s h

theorem aux_foldRemove_id :
    ∀ (es : List String) (u : List Char),
      (∀ e ∈ es, containsSub e.toList u = false) →
      es.foldl (fun s e => pyRemoveAll e.toList s) u = u := by
  intro es
  induction es with
  | nil => intro u _; rfl
  | cons e rest ih =>
    intro u h
    simp only [List.foldl_cons]
    rw [aux_pyRemoveAll_id (h e (List.mem_cons_self e rest))]
    exact ih u (fun x hx => h x (List.mem_cons_of_mem e hx))

theorem aux_splitOnDot_no_dot :
    ∀ {l : List Char}, (∀ c ∈ l, ¬c = '.') → splitOnDot l = [l] := by
  intro l
  induction l with
  | nil => intro _; rfl
  | cons c t ih =>
    intro h
    have hc : ¬c = '.' := h c (List.mem_cons_self c t)
    have ht := ih (fun x hx => h x (List.mem_cons_of_mem c hx))
    simp only [splitOnDot, hc, if_false]
    rw [ht]

theorem aux_map_id_of {f : Char → Char} :
    ∀ {l : List Char}, (∀ c ∈ l, f c = c) → l.map f = l := by
  intro l
  induction l with
  | nil => intro _; rfl
  | cons c t ih =>
    intro h
    simp only [List.map_cons]
    rw [h c (List.mem_cons_self c t), ih (fun x hx => h x (List.mem_cons_of_mem c hx))]

theorem aux_strip_ne_nil {l : List Char}
    (h : ∃ c ∈ l, pySpace c = false) : stripWS l ≠ [] := by
  rcases h with ⟨c, hc, hcs⟩
  unfold stripWS dropLeadingWS
  rcases aux_dropWhile_head l with h0 | ⟨d, t', h0, hd⟩
  · exfalso
    have := List.dropWhile_eq_nil_iff.mp h0 c hc
    rw [hcs] at this
    exact Bool.false_ne_true this
  · rw [h0]
    intro hcon
    have := aux_dropTrailing_eq_nil.mp hcon d (List.mem_cons_self d t')
    rw [hd] at this
    exact Bool.false_ne_true this

theorem aux_bucket_sum :
    ∀ (l : List (List Char)),
      (bucketSentences l).1.length + (bucketSentences l).2.1.length +
        (bucketSentences l).2.2.length = l.length := by
  intro l
  induction l with
  | nil => rfl
  | cons s rest ih =>
    simp only [bucketSentences]
    split
    · simpa [Nat.add_assoc, Nat.add_comm, Nat.add_left_comm] using congrArg Nat.succ ih
    · split
      · simp only [List.length_cons]
        omega
      · simp only [List.length_cons]
        omega

/-! ## The claims -/

attribute [local semireducible] Rat.add Rat.mul Rat.sub Rat.inv Rat.ofScientific

/-- C1: the phrase scan of `analyze_tagalog_sentiment` iterates each
polarity phrase list in length-descending (longest-first) order with
word-boundary matching, and a claimed character span suppresses every
shorter phrase and every single word starting inside it: scoring
`"sobrang ganda"` yields exactly the single un-negated phrase weight
2.5 on the positive side (the embedded word `"ganda"`, worth 1 on its
own as the score of `"ganda"` shows, is not additionally awarded) and
nothing on the negative side. -/
theorem C1_phrase_precedence :
    List.Pairwise (fun (a b : List Char) => b.length ≤ a.length) (sortByLenDesc posPhrasesL) ∧
    List.Pairwise (fun (a b : List Char) => b.length ≤ a.length) (sortByLenDesc negPhrasesL) ∧
    (analyzeTagalogSentiment "sobrang ganda").positiveScore = 2.5 ∧
    (analyzeTagalogSentiment "sobrang ganda").negativeScore = 0 ∧
    (analyzeTagalogSentiment "ganda").positiveScore = 1 ∧
    (analyzeTagalogSentiment "ganda").negativeScore = 0 := by
  refine ⟨by decide, by decide, by decide, by decide, by decide, by decide⟩

/-- C3: a matched polarity phrase with a negation word among the
tokens of its 20-character left context contributes 2.0 to the
opposite accumulator, and an un-negated one contributes 2.5 to its
own (the two branches of `phraseStep`); concretely
`"hindi maganda"` (itself a lexicon negative phrase, matched
un-negated) scores 2.5 negative and 0 positive — so
`negativeScore ≥ positiveScore` and the negative contribution strictly
exceeds the 1.0 that `"maganda"` alone contributes positively — and
`"hindi ang ganda"` (positive phrase `"ang ganda"` preceded by the
negation `"hindi"`) scores exactly 2.0 negative. -/
theorem C3_negation_inversion :
    (∀ (tl p : List Char) (st : ScanState) (i : Nat),
      phraseStep true tl p st i =
        if usedContains st.used i then st
        else if negatedContext tl i then ⟨st.pos, st.neg + 2, st.used ++ [(i, i + p.length)]⟩
        else ⟨st.pos + 2.5, st.neg, st.used ++ [(i, i + p.length)]⟩) ∧
    (∀ (tl p : List Char) (st : ScanState) (i : Nat),
      phraseStep false tl p st i =
        if usedContains st.used i then st
        else if negatedContext tl i then ⟨st.pos + 2, st.neg, st.used ++ [(i, i + p.length)]⟩
        else ⟨st.pos, st.neg + 2.5, st.used ++ [(i, i + p.length)]⟩) ∧
    (analyzeTagalogSentiment "hindi maganda").negativeScore = 2.5 ∧
    (analyzeTagalogSentiment "hindi maganda").positiveScore = 0 ∧
    (analyzeTagalogSentiment "hindi ang ganda").negativeScore = 2 ∧
    (analyzeTagalogSentiment "hindi ang ganda").positiveScore = 0 ∧
    (analyzeTagalogSentiment "maganda").positiveScore = 1 ∧
    (analyzeTagalogSentiment "hindi maganda").negativeScore ≥
      (analyzeTagalogSentiment "hindi maganda").positiveScore ∧
    (analyzeTagalogSentiment "hindi maganda").negativeScore >
      (analyzeTagalogSentiment "maganda").positiveScore := by
  refine ⟨fun tl p st i => rfl, fun tl p st i => rfl, by decide, by decide, by decide,
    by decide, by decide, by decide, by decide⟩


/-- C2 counterexample: for `"maganda maganda. noisy"` the per-sentence
analysis shows one positive-leaning (balance > 0.5) and one
negative-leaning (balance < -0.5) sentence and the neutral-indicator
rule does not apply (the indicator count is 0), yet the classifier
returns `"positive"` (confidence 0.74), not neutral 0.8: the claimed
"both polarities present" disjunct alone does not force neutrality. -/
theorem C2_counterexample :
    neutralCountL (lowerStr "maganda maganda. noisy".toList) = 0 ∧
    (analyzeTagalogSentiment "maganda maganda. noisy").posSentences = 1 ∧
    (analyzeTagalogSentiment "maganda maganda. noisy").negSentences = 1 ∧
    (analyzeTagalogSentiment "maganda maganda. noisy").sentiment = "positive" ∧
    (analyzeTagalogSentiment "maganda maganda. noisy").confidence = 0.74 := by
  refine ⟨by decide, by decide, by decide, by decide, by decide⟩

/-- C2 (amended): when the neutral-indicator rule does not apply, the
classifier returns neutral with confidence 0.8 whenever mixed signals
exist (a positive-leaning and a negative-leaning sentence, or at least
one constructive sentence) AND additionally at least 2 sentences are
flagged constructive or negativeScore >= 1.0; the "both polarities"
and "negativeScore >= 1.0 while mixed" conditions are conjuncts of one
rule, not independent triggers. -/
theorem C2_mixed_neutral (pos neg : ℚ) (nCount posSent negSent consCount : Nat)
    (h1 : ¬(nCount ≥ 1 ∧ pos < 1 ∧ neg < 1))
    (h2 : (posSent > 0 ∧ negSent > 0) ∨ consCount ≥ 1)
    (h3 : consCount ≥ 2 ∨ neg ≥ 1) :
    classifySentiment pos neg nCount posSent negSent consCount = ("neutral", 0.8) := by
  unfold classifySentiment
  rw [if_neg h1, if_pos]
  constructor
  · rcases h2 with h2 | h2
    · exact Or.inl h2
    · exact Or.inr h2
  · exact h3

/-- C2 witness: a concrete mixed-signal instance of the amended rule. -/
theorem C2_mixed_neutral_witness :
    classifySentiment 2 (6 / 5) 0 1 1 0 = ("neutral", 0.8) :=
  C2_mixed_neutral 2 (6 / 5) 0 1 1 0 (by decide) (Or.inl ⟨by decide, by decide⟩)
    (Or.inr (by decide))



/-- C4: in `analyze_mixed_sentiment`, when the lexical result is not
an indicator-backed neutral and its |totalScore| is below 2.0, any
contrast marker (but/however/although/pero/ngunit/subalit) in the text
together with a nonzero lexical score on either side forces the result
neutral with confidence 0.8 (`mixed_contrast_override`), for every
possible external (TextBlob) result. -/
theorem C4_contrast_override (en : EnResult) (text : String)
    (h1 : ¬(neutralCountL (lowerStr text.toList) ≥ 1 ∧
      (analyzeTagalogSentiment text).sentiment = "neutral"))
    (h2 : qabs (analyzeTagalogSentiment text).totalScore < 2)
    (h3 : hasContrastL (lowerStr text.toList) = true)
    (h4 : (analyzeTagalogSentiment text).positiveScore > 0 ∨
      (analyzeTagalogSentiment text).negativeScore > 0) :
    analyzeMixedSentiment en text = ⟨"neutral", 0.8, "mixed_contrast_override"⟩ := by
  unfold analyzeMixedSentiment
  rw [if_neg h1, if_neg (not_le.mpr h2), if_pos ⟨h3, h4⟩]

/-- C4 witness: `"pero maganda"` (lexical result positive 0.7, scores
1/0, total 1, no indicator) is forced neutral 0.8 even against an
external result of high confidence and positive polarity. -/
theorem C4_contrast_override_witness :
    analyzeMixedSentiment ⟨"positive", 1, 1 / 2, 9 / 10, "textblob_english_enhanced"⟩
      "pero maganda" = ⟨"neutral", 0.8, "mixed_contrast_override"⟩ :=
  C4_contrast_override ⟨"positive", 1, 1 / 2, 9 / 10, "textblob_english_enhanced"⟩
    "pero maganda" (by decide) (by decide) (by decide) (Or.inl (by decide))

/-- C5: `analyze_sentiment` on empty or whitespace-only input returns
neutral, confidence 0.0, method `empty_text`; on input that is not
whitespace-only but whose emoticon/emoji removal leaves the empty
string it returns neutral, confidence 0.0, method
`empty_after_emoji_removal` — for every language identifier and every
external analyzer, i.e. neither case is an error. -/
theorem C5_empty_handling (langid : String → LangInfo) (en : String → EnResult) (t : String) :
    (stripWS t.toList = [] → analyzeSentiment langid en t = ⟨"neutral", 0, "empty_text"⟩) ∧
    (stripWS t.toList ≠ [] → removeEmojis t = "" →
      analyzeSentiment langid en t = ⟨"neutral", 0, "empty_after_emoji_removal"⟩) := by
  constructor
  · intro h
    unfold analyzeSentiment
    rw [if_pos h]
  · intro h1 h2
    unfold analyzeSentiment
    rw [if_neg h1]
    simp only [h2, if_pos]

/-- C5 witness: the empty string takes the `empty_text` branch and the
pure-emoji string `"🎉"` takes the `empty_after_emoji_removal`
branch, under a concrete language identifier and external analyzer. -/
theorem C5_empty_handling_witness :
    analyzeSentiment (fun _ => ⟨"en", 0, false⟩)
        (fun _ => ⟨"neutral", 0, 0, 0, "textblob_english_enhanced"⟩) "" =
      ⟨"neutral", 0, "empty_text"⟩ ∧
    analyzeSentiment (fun _ => ⟨"en", 0, false⟩)
        (fun _ => ⟨"neutral", 0, 0, 0, "textblob_english_enhanced"⟩) "🎉" =
      ⟨"neutral", 0, "empty_after_emoji_removal"⟩ :=
  ⟨(C5_empty_handling (fun _ => ⟨"en", 0, false⟩)
      (fun _ => ⟨"neutral", 0, 0, 0, "textblob_english_enhanced"⟩) "").1 (by decide),
   (C5_empty_handling (fun _ => ⟨"en", 0, false⟩)
      (fun _ => ⟨"neutral", 0, 0, 0, "textblob_english_enhanced"⟩) "🎉").2
     (by decide) (by decide)⟩



/-- C6 counterexample: `remove_emojis` is not idempotent.  On
`"::))"` the single left-to-right removal pass for the emoticon
`":)"` deletes the middle occurrence and thereby splices the remaining
`":"` and `")"` into a fresh `":)"`, so one application yields
`":)"` and a second application yields `""`. -/
theorem C6_counterexample :
    removeEmojis (removeEmojis "::))") ≠ removeEmojis "::))" := by
  decide

/-- C6 (amended): `remove_emojis` is a deterministic total function,
and it is idempotent on every text whose normalized form contains no
emoticon token (pictograph-range characters never survive the first
pass, so only a re-created emoticon such as the one in `"::))"` can
break idempotence). -/
theorem aux_removeEmojisL_eq (l : List Char) :
    removeEmojisL l =
      stripWS ((emoticonsAll.foldl (fun s e => pyRemoveAll e.toList s) l).filter
        (fun c => !inEmojiRange c)) := rfl

theorem aux_norm_fixed (u : List Char)
    (hcontains : ∀ e ∈ emoticonsAll, containsSub e.toList u = false)
    (hkeep : ∀ c ∈ u, (!inEmojiRange c) = true)
    (hstrip : stripWS u = u) :
    removeEmojisL u = u := by
  rw [aux_removeEmojisL_eq]
  rw [aux_foldRemove_id emoticonsAll u hcontains]
  rw [List.filter_eq_self.mpr hkeep]
  exact hstrip

theorem aux_removeEmojis_eq (u : String) :
    removeEmojis u = String.mk (removeEmojisL u.toList) := rfl

theorem aux_toList_mk (L : List Char) : (String.mk L).toList = L := rfl

theorem aux_c6_htl (t : String) : (removeEmojis t).toList = removeEmojisL t.toList := by
  rw [aux_removeEmojis_eq t, aux_toList_mk]

theorem aux_c6_hkeep (t : String) :
    ∀ c ∈ removeEmojisL t.toList, (!inEmojiRange c) = true := by
  intro c hc
  rw [aux_removeEmojisL_eq] at hc
  have h2 := aux_mem_strip hc
  rw [List.mem_filter] at h2
  exact h2.2

theorem aux_c6_hstrip (t : String) :
    stripWS (removeEmojisL t.toList) = removeEmojisL t.toList := by
  rw [aux_removeEmojisL_eq]
  exact aux_strip_idem _

theorem C6_normalize_idempotent (t : String)
    (h : ∀ e ∈ emoticonsAll, containsSub e.toList (removeEmojis t).toList = false) :
    removeEmojis (removeEmojis t) = removeEmojis t := by
  have htl := aux_c6_htl t
  have hcontains : ∀ e ∈ emoticonsAll, containsSub e.toList (removeEmojisL t.toList) = false := by
    intro e he
    rw [← htl]
    exact h e he
  calc removeEmojis (removeEmojis t)
      = String.mk (removeEmojisL (removeEmojis t).toList) := aux_removeEmojis_eq _
    _ = String.mk (removeEmojisL (removeEmojisL t.toList)) := by rw [htl]
    _ = String.mk (removeEmojisL t.toList) := by
        rw [aux_norm_fixed (removeEmojisL t.toList) hcontains (aux_c6_hkeep t) (aux_c6_hstrip t)]
    _ = removeEmojis t := (aux_removeEmojis_eq t).symm

/-- C6 witness: a concrete text whose normalized form has no emoticon
token, on which normalization is idempotent. -/
theorem C6_normalize_idempotent_witness :
    removeEmojis (removeEmojis "hello :) world") = removeEmojis "hello :) world" :=
  C6_normalize_idempotent "hello :) world" (by decide)



/-- C7 counterexample: the empty string contains no sentence-terminal
punctuation at all, yet segmentation yields zero sentences (and the
splitter's bucket counts sum to 0), not "exactly one sentence". -/
theorem C7_counterexample :
    ("" : String).toList = [] ∧
    (pySentences ("" : String).toList).length = 0 ∧
    (splitCommentBySentiment "").posCount + (splitCommentBySentiment "").negCount +
      (splitCommentBySentiment "").neuCount = 0 := by
  refine ⟨rfl, by decide, by decide⟩

/-- C7 (amended): the comment splitter is total, its three bucket
counts always sum to the sentence count that the same segmentation
rule produces on the raw input, and a NON-BLANK input without any of
`'.'`, `'!'`, `'?'` yields exactly one sentence (a blank input yields
zero sentences). -/
theorem C7_split_total (t : String) :
    ((splitCommentBySentiment t).posCount + (splitCommentBySentiment t).negCount +
      (splitCommentBySentiment t).neuCount = (pySentences t.toList).length) ∧
    (stripWS t.toList ≠ [] → (∀ c ∈ t.toList, ¬(c = '.' ∨ c = '!' ∨ c = '?')) →
      (pySentences t.toList).length = 1) := by
  constructor
  · have h1 : (splitCommentBySentiment t).posCount =
        (bucketSentences (pySentences t.toList)).1.length := rfl
    have h2 : (splitCommentBySentiment t).negCount =
        (bucketSentences (pySentences t.toList)).2.1.length := rfl
    have h3 : (splitCommentBySentiment t).neuCount =
        (bucketSentences (pySentences t.toList)).2.2.length := rfl
    rw [h1, h2, h3]
    exact aux_bucket_sum (pySentences t.toList)
  · intro hne hnp
    have hmap : t.toList.map (fun c => if c = '!' ∨ c = '?' then '.' else c) = t.toList := by
      apply aux_map_id_of
      intro c hc
      have := hnp c hc
      rw [if_neg]
      intro hcon
      rcases hcon with h | h
      · exact this (Or.inr (Or.inl h))
      · exact this (Or.inr (Or.inr h))
    have hsplit : splitOnDot t.toList = [t.toList] := by
      apply aux_splitOnDot_no_dot
      intro c hc hdot
      exact hnp c hc (Or.inl hdot)
    have hsent : pySentences t.toList = [stripWS t.toList] := by
      unfold pySentences
      rw [hmap, hsplit]
      simp only [List.map_cons, List.map_nil]
      cases hsw : stripWS t.toList with
      | nil => exact absurd hsw hne
      | cons a r => simp [List.filter, List.isEmpty]
    rw [hsent]
    rfl

/-- C7 witness: a punctuation-free non-blank input has exactly one
sentence and the bucket counts sum to it. -/
theorem C7_split_total_witness :
    ((splitCommentBySentiment "hello").posCount + (splitCommentBySentiment "hello").negCount +
      (splitCommentBySentiment "hello").neuCount = (pySentences "hello".toList).length) ∧
    (pySentences "hello".toList).length = 1 :=
  ⟨(C7_split_total "hello").1, (C7_split_total "hello").2 (by decide) (by decide)⟩

/-- C8 counterexample: the neutral indicator `"ok"` occurs in
`"broken"` only inside the single word token `"broken"`, yet the
neutral-indicator count of the classifier's first rule is 1, not 0 —
the source counts indicators by plain substring containment
(`neutral in text_lower`), not with word boundaries. -/
theorem C8_counterexample :
    containsSub "ok".toList (lowerStr "broken".toList) = true ∧
    (tokenRuns wordChar (lowerStr "broken".toList)).map Prod.snd = ["broken".toList] ∧
    neutralCountL (lowerStr "broken".toList) = 1 := by
  refine ⟨by decide, by decide, by decide⟩

/-- C8 (amended): positive/negative polarity PHRASES are only scored
at word-boundary token-sequence occurrences (the embedded scan of
`"not goodness"` scores nothing although `"not good"` occurs as a
substring), but NEUTRAL INDICATORS are counted by plain substring
containment, so `"broken"` carries one neutral indicator (`"ok"`) and
is classified neutral at confidence 0.75 by the first rule. -/
theorem C8_boundary_matching :
    containsSub "not good".toList (lowerStr "not goodness".toList) = true ∧
    (analyzeTagalogSentiment "not goodness").positiveScore = 0 ∧
    (analyzeTagalogSentiment "not goodness").negativeScore = 0 ∧
    neutralCountL (lowerStr "broken".toList) = 1 ∧
    (analyzeTagalogSentiment "broken").sentiment = "neutral" ∧
    (analyzeTagalogSentiment "broken").confidence = 0.75 := by
  refine ⟨by decide, by decide, by decide, by decide, by decide, by decide⟩

/-- C9 counterexample: a well-formed `'en'` entry is ignored entirely
by `load_custom_lexicon` — the store is returned unchanged and the
term is found in no table — contradicting "for language 'tl' and for
language 'en' alike, adds or overwrites the table entry". -/
theorem C9_counterexample :
    loadCustomLexicon defaultStore
      [⟨some "great", some "positive", some 2, some "en", some false⟩] = defaultStore ∧
    defaultStore.tagalog_positive.lookup "great" = none := by
  refine ⟨rfl, by decide⟩

/-- C9 (amended): lexicon loading is a total function that never
fails; an entry with no sentiment (or an unrecognised one) is skipped;
any entry whose language is not `'tl'` — in particular every `'en'`
entry — is ignored; a well-formed `'tl'` entry adds or overwrites the
word-table entry under its lowered term (negated weight for negative
sentiment), additionally appending phrase entries to the corresponding
phrase list, and appends neutral terms to the indicator list; a
missing weight defaults to 1.0 instead of skipping the entry. -/
theorem C9_lexicon_merge (st : Store) (e : LexEntry) :
    (e.language.getD "en" ≠ "tl" → applyLexEntry st e = st) ∧
    (e.sentiment = none → applyLexEntry st e = st) ∧
    (∀ w q, e.language = some "tl" → e.sentiment = some "positive" → e.word = some w →
      e.weight = some q →
      (applyLexEntry st e).tagalog_positive.lookup (String.mk (lowerStr w.toList)) = some q ∧
      (applyLexEntry st e).positive_phrases =
        (if e.isPhrase.getD false then st.positive_phrases ++ [String.mk (lowerStr w.toList)]
         else st.positive_phrases)) ∧
    (∀ w q, e.language = some "tl" → e.sentiment = some "negative" → e.word = some w →
      e.weight = some q →
      (applyLexEntry st e).tagalog_negative.lookup (String.mk (lowerStr w.toList)) = some (-q) ∧
      (applyLexEntry st e).negative_phrases =
        (if e.isPhrase.getD false then st.negative_phrases ++ [String.mk (lowerStr w.toList)]
         else st.negative_phrases)) ∧
    (∀ w, e.language = some "tl" → e.sentiment = some "neutral" → e.word = some w →
      (applyLexEntry st e).neutral_indicators =
        st.neutral_indicators ++ [String.mk (lowerStr w.toList)]) ∧
    (∀ w, e.language = some "tl" → e.sentiment = some "positive" → e.word = some w →
      e.weight = none →
      (applyLexEntry st e).tagalog_positive.lookup (String.mk (lowerStr w.toList)) = some 1) := by
  refine ⟨?_, ?_, ?_, ?_, ?_, ?_⟩
  · intro hl
    unfold applyLexEntry
    rw [if_neg hl]
  · intro hs
    unfold applyLexEntry
    by_cases hl : e.language.getD "en" = "tl"
    · rw [if_pos hl, hs]
    · rw [if_neg hl]
  · intro w q hl hs hw hq
    unfold applyLexEntry
    rw [hs, hw, hq]
    rw [if_pos (by rw [hl]; rfl)]
    constructor
    · simp [dictSet, List.lookup]
    · rfl
  · intro w q hl hs hw hq
    unfold applyLexEntry
    rw [hs, hw, hq]
    rw [if_pos (by rw [hl]; rfl)]
    constructor
    · simp [dictSet, List.lookup]
    · rfl
  · intro w hl hs hw
    unfold applyLexEntry
    rw [hs, hw]
    rw [if_pos (by rw [hl]; rfl)]
    rfl
  · intro w hl hs hw hq
    unfold applyLexEntry
    rw [hs, hw, hq]
    rw [if_pos (by rw [hl]; rfl)]
    simp [dictSet, List.lookup]

/-- C9 witness: a concrete well-formed `'tl'` positive phrase entry
lands in the word table and the phrase list. -/
theorem C9_lexicon_merge_witness :
    (applyLexEntry defaultStore
        ⟨some "bongga", some "positive", some 2, some "tl", some true⟩).tagalog_positive.lookup
      (String.mk (lowerStr "bongga".toList)) = some 2 ∧
    (applyLexEntry defaultStore
        ⟨some "bongga", some "positive", some 2, some "tl", some true⟩).positive_phrases =
      (if (⟨some "bongga", some "positive", some 2, some "tl",
          some true⟩ : LexEntry).isPhrase.getD false then
        defaultStore.positive_phrases ++ [String.mk (lowerStr "bongga".toList)]
       else defaultStore.positive_phrases) :=
  (C9_lexicon_merge defaultStore
    ⟨some "bongga", some "positive", some 2, some "tl", some true⟩).2.2.1 "bongga" 2
    rfl rfl rfl rfl

/-- C10: `analyze_sentiment` dispatches to the pure English (TextBlob)
path exactly when language detection reports `"en"` with the
reliability flag set AND the cleaned text has no strong Tagalog
indicator (no polarity phrase as a substring and no `\w+` token in
either word table); reliably-English text containing such a lexicon
term goes to the mixed/blended path, and `"tl"` text always takes the
Tagalog lexicon path. -/
theorem C10_dispatch_guard (lang : LangInfo) (cleaned : String) :
    (choosePath lang cleaned = PathChoice.english ↔
      lang.language = "en" ∧ lang.is_reliable = true ∧
        hasStrongTagalog (lowerStr cleaned.toList) = false) ∧
    (lang.language = "en" → lang.is_reliable = true →
      hasStrongTagalog (lowerStr cleaned.toList) = true →
      choosePath lang cleaned = PathChoice.mixed) ∧
    (lang.language = "tl" → choosePath lang cleaned = PathChoice.tagalog) := by
  refine ⟨?_, ?_, ?_⟩
  · unfold choosePath
    by_cases h1 : lang.language = "en" ∧ lang.is_reliable = true ∧
        hasStrongTagalog (lowerStr cleaned.toList) = false
    · rw [if_pos h1]
      exact ⟨fun _ => h1, fun _ => rfl⟩
    · rw [if_neg h1]
      constructor
      · intro h2
        by_cases h3 : lang.language = "tl"
        · rw [if_pos h3] at h2
          exact absurd h2 (by simp)
        · rw [if_neg h3] at h2
          exact absurd h2 (by simp)
      · intro h2
        exact absurd h2 h1
  · intro he hr hs
    unfold choosePath
    rw [if_neg (fun hcon => by rw [hs] at hcon; exact absurd hcon.2.2 (by simp))]
    rw [if_neg (fun hcon => by rw [he] at hcon; exact absurd hcon (by decide))]
  · intro ht
    unfold choosePath
    rw [if_neg (fun hcon => by rw [ht] at hcon; exact absurd hcon.1 (by decide))]
    rw [if_pos ht]

/-- C10 witness: concrete dispatches — `"tl"` goes Tagalog; reliable
English with the lexicon word `"nice"` goes mixed; reliable English
with no lexicon term goes English. -/
theorem C10_dispatch_guard_witness :
    choosePath ⟨"tl", 99 / 100, true⟩ "maganda" = PathChoice.tagalog ∧
    choosePath ⟨"en", 99 / 100, true⟩ "that was nice" = PathChoice.mixed ∧
    choosePath ⟨"en", 99 / 100, true⟩ "the weather is cold" = PathChoice.english :=
  ⟨(C10_dispatch_guard ⟨"tl", 99 / 100, true⟩ "maganda").2.2 rfl,
   (C10_dispatch_guard ⟨"en", 99 / 100, true⟩ "that was nice").2.1 rfl rfl (by decide),
   (C10_dispatch_guard ⟨"en", 99 / 100, true⟩ "the weather is cold").1.mpr
     ⟨rfl, rfl, by decide⟩⟩


end EventEval
